import Mathlib

/-!
Verification development for the `go-next-gen-image` library: a shallow
embedding of its magic-byte image format sniffer (`imagetype.go`) and its
conversion policy layer (`ToWebP` / `ToAVIF`), with theorems settling the
specification claims about these components.

Bytes are modelled as `Nat`, byte buffers as `List Nat`.  External effects
(the `vips` codec, the filesystem) are modelled by an explicit environment
of oracle results, and each conversion run records a trace of the external
invocations it performs.
-/

set_option autoImplicit false

namespace NextGenImage

/-- `ImageType` from `imagetype.go`: the classification tags. -/
inductive ImageType where
  | jpeg
  | png
  | gif
  | webp
  | avif
  | unknown
deriving DecidableEq, Repr

/-- `ImageType.IsSupported` from `imagetype.go`: `true` for the JPEG, PNG
and GIF cases of the `switch`, `false` for the default. -/
def ImageType.IsSupported : ImageType → Bool
  | ImageType.jpeg => true
  | ImageType.png => true
  | ImageType.gif => true
  | _ => false

/-- `jpegMagic1 = FF D8 FF`. -/
def jpegMagic1 : List Nat := [0xFF, 0xD8, 0xFF]

/-- `pngMagic = 89 50 4E 47 0D 0A 1A 0A`. -/
def pngMagic : List Nat := [0x89, 0x50, 0x4E, 0x47, 0x0D, 0x0A, 0x1A, 0x0A]

/-- `gifMagic1 = "GIF87a"`. -/
def gifMagic1 : List Nat := [0x47, 0x49, 0x46, 0x38, 0x37, 0x61]

/-- `gifMagic2 = "GIF89a"`. -/
def gifMagic2 : List Nat := [0x47, 0x49, 0x46, 0x38, 0x39, 0x61]

/-- `webpMagic = "RIFF"`. -/
def webpMagic : List Nat := [0x52, 0x49, 0x46, 0x46]

/-- `webpType = "WEBP"`. -/
def webpType : List Nat := [0x57, 0x45, 0x42, 0x50]

/-- The ASCII bytes of `"ftyp"`. -/
def ftypBytes : List Nat := [0x66, 0x74, 0x79, 0x70]

/-- The ASCII bytes of the AVIF major brand `"avif"`. -/
def avifBrand : List Nat := [0x61, 0x76, 0x69, 0x66]

/-- The ASCII bytes of the AVIF sequence brand `"avis"`. -/
def avisBrand : List Nat := [0x61, 0x76, 0x69, 0x73]

/-- `isAVIF` from `imagetype.go`: `ftyp` box at offset 4, major brand
`avif`/`avis` at offset 8, otherwise (with at least 16 bytes) a flat
substring search for `avif`/`avis` from offset 16 onward, mirroring
`bytes.Contains(buf[16:], ...)`. -/
def isAVIF (buf : List Nat) : Bool :=
  if buf.length < 12 then
    false
  else if ¬ ((buf.drop 4).take 4 = ftypBytes) then
    false
  else if (buf.drop 8).take 4 = avifBrand ∨ (buf.drop 8).take 4 = avisBrand then
    true
  else if 16 ≤ buf.length then
    decide (avifBrand <:+: buf.drop 16 ∨ avisBrand <:+: buf.drop 16)
  else
    false

/-- `detectFromBytes` from `imagetype.go`.  The Go function returns
`(ImageType, error)`; every branch returns a `nil` error, modelled as the
always-`none` second component. -/
def detectFromBytes (buf : List Nat) : ImageType × Option Unit :=
  if 8 ≤ buf.length ∧ buf.take 8 = pngMagic then
    (ImageType.png, none)
  else if 3 ≤ buf.length ∧ buf.take 3 = jpegMagic1 then
    (ImageType.jpeg, none)
  else if 6 ≤ buf.length ∧ (buf.take 6 = gifMagic1 ∨ buf.take 6 = gifMagic2) then
    (ImageType.gif, none)
  else if 12 ≤ buf.length ∧ buf.take 4 = webpMagic ∧ (buf.drop 8).take 4 = webpType then
    (ImageType.webp, none)
  else if 12 ≤ buf.length ∧ isAVIF buf then
    (ImageType.avif, none)
  else
    (ImageType.unknown, none)

/-- `DetectImageTypeFromBytes` from `imagetype.go`: drops the (always nil)
error of `detectFromBytes`. -/
def DetectImageTypeFromBytes (data : List Nat) : ImageType :=
  (detectFromBytes data).1

/-- The two distinguishable failures of the reader-based detector:
a failed `io.ReadFull` (an underlying read error other than
`io.ErrUnexpectedEOF`, e.g. a bare `io.EOF` on an empty source), and the
"file too small to determine type" rejection. -/
inductive DetectError where
  | readFailed
  | tooSmall
deriving DecidableEq, Repr

/-- Outcome of the reader-based detector. -/
inductive DetectOutcome where
  | found (t : ImageType)
  | failed (e : DetectError)
deriving DecidableEq, Repr

/-- `DetectImageTypeFromReader` from `imagetype.go`, for a stream that
delivers the byte list `stream` followed by a clean end of stream.
`io.ReadFull(r, make([]byte, 32))` consumes `min 32 stream.length` bytes and
reports: `nil` when 32 bytes were read, `io.ErrUnexpectedEOF` on a non-empty
short read, and `io.EOF` when nothing could be read.  The Go code propagates
any error other than `io.ErrUnexpectedEOF`, then rejects fewer than 12
bytes as too small.  Returns the outcome together with the number of bytes
consumed from the stream. -/
def DetectImageTypeFromReader (stream : List Nat) : DetectOutcome × Nat :=
  if stream.length = 0 then
    (DetectOutcome.failed DetectError.readFailed, min 32 stream.length)
  else if min 32 stream.length < 12 then
    (DetectOutcome.failed DetectError.tooSmall, min 32 stream.length)
  else
    (DetectOutcome.found (detectFromBytes (stream.take 32)).1, min 32 stream.length)

/-- The classifier exactly as the specification words it, for buffers of at
least 12 bytes: ordered signature checks with no additional length guards
(PNG, then JPEG, then GIF, then WebP, then the AVIF `ftyp`/brand scan),
falling through to `Unknown`. -/
def specClassify (buf : List Nat) : ImageType :=
  if buf.take 8 = pngMagic then
    ImageType.png
  else if buf.take 3 = jpegMagic1 then
    ImageType.jpeg
  else if buf.take 6 = gifMagic1 ∨ buf.take 6 = gifMagic2 then
    ImageType.gif
  else if buf.take 4 = webpMagic ∧ (buf.drop 8).take 4 = webpType then
    ImageType.webp
  else if (buf.drop 4).take 4 = ftypBytes ∧
      ((buf.drop 8).take 4 = avifBrand ∨ (buf.drop 8).take 4 = avisBrand ∨
        (16 ≤ buf.length ∧ (avifBrand <:+: buf.drop 16 ∨ avisBrand <:+: buf.drop 16))) then
    ImageType.avif
  else
    ImageType.unknown

theorem isAVIF_eq_true_iff (buf : List Nat) (h : 12 ≤ buf.length) :
    isAVIF buf = true ↔
      (buf.drop 4).take 4 = ftypBytes ∧
        ((buf.drop 8).take 4 = avifBrand ∨ (buf.drop 8).take 4 = avisBrand ∨
          (16 ≤ buf.length ∧ (avifBrand <:+: buf.drop 16 ∨ avisBrand <:+: buf.drop 16))) := by
  unfold isAVIF
  have h12 : ¬ (buf.length < 12) := by omega
  simp only [h12, if_false]
  by_cases hf : (buf.drop 4).take 4 = ftypBytes
  · simp only [hf, not_true, if_false]
    by_cases hb : (buf.drop 8).take 4 = avifBrand ∨ (buf.drop 8).take 4 = avisBrand
    · simp [hb]
      tauto
    · simp only [hb, if_false]
      by_cases h16 : 16 ≤ buf.length
      · simp [h16]
        tauto
      · simp [h16]
        tauto
  · simp [hf]

theorem detectFromBytes_eq_specClassify (buf : List Nat) (h : 12 ≤ buf.length) :
    (detectFromBytes buf).1 = specClassify buf ∧ (detectFromBytes buf).2 = none := by
  have h8 : 8 ≤ buf.length := by omega
  have h3 : 3 ≤ buf.length := by omega
  have h6 : 6 ≤ buf.length := by omega
  constructor
  · unfold detectFromBytes specClassify
    simp only [h8, h3, h6, h, true_and]
    by_cases h1 : buf.take 8 = pngMagic
    · simp [h1]
    by_cases h2 : buf.take 3 = jpegMagic1
    · simp [h1, h2]
    by_cases hg : buf.take 6 = gifMagic1 ∨ buf.take 6 = gifMagic2
    · simp [h1, h2, hg]
    by_cases hw : buf.take 4 = webpMagic ∧ (buf.drop 8).take 4 = webpType
    · simp [h1, h2, hg, hw]
    by_cases ha : isAVIF buf = true
    · simp [h1, h2, hg, hw, ha, (isAVIF_eq_true_iff buf h).mp ha]
    · have hns : ¬ ((buf.drop 4).take 4 = ftypBytes ∧
          ((buf.drop 8).take 4 = avifBrand ∨ (buf.drop 8).take 4 = avisBrand ∨
            (16 ≤ buf.length ∧ (avifBrand <:+: buf.drop 16 ∨ avisBrand <:+: buf.drop 16)))) :=
        fun hcond => ha ((isAVIF_eq_true_iff buf h).mpr hcond)
      simp [h1, h2, hg, hw, ha, hns]
  · unfold detectFromBytes
    repeat' split
    all_goals rfl

/-- A Go error value as the callers of this package observe it:
`format` is whether `errors.As(err, **FormatError)` succeeds somewhere in
the wrap chain, `msg` the rendered message. -/
structure GoError where
  format : Bool
  msg : String
deriving DecidableEq, Repr

/-- `fmt.Errorf("prefix: %w", e)`: prefixes the message and keeps the wrap
chain, so the `FormatError` mark is preserved. -/
def wrapErr (pre : String) (e : GoError) : GoError :=
  { format := e.format, msg := pre ++ ": " ++ e.msg }

/-- `NewFormatError(e)`: marks the chain as a `FormatError`. -/
def newFormatError (e : GoError) : GoError :=
  { format := true, msg := "format error: " ++ e.msg }

/-- A fresh `fmt.Errorf` with no wrapped `FormatError`. -/
def plainError (msg : String) : GoError :=
  { format := false, msg := msg }

/-- Result of an external call returning a value of type `α`. -/
inductive Res (α : Type) where
  | ok (val : α)
  | err (e : GoError)
deriving DecidableEq, Repr

/-- `vips.WebpExportParams` (the fields this library touches). -/
structure WebpExportParams where
  quality : Int
  lossless : Bool
  nearLossless : Bool
  stripMetadata : Bool
deriving DecidableEq, Repr

/-- `vips.NewWebpExportParams()` library defaults for the modelled fields. -/
def NewWebpExportParams : WebpExportParams :=
  { quality := 75, lossless := false, nearLossless := false, stripMetadata := true }

/-- `vips.AvifExportParams` (the fields this library touches). -/
structure AvifExportParams where
  quality : Int
  lossless : Bool
  stripMetadata : Bool
deriving DecidableEq, Repr

/-- `vips.NewAvifExportParams()` library defaults for the modelled fields. -/
def NewAvifExportParams : AvifExportParams :=
  { quality := 80, lossless := false, stripMetadata := true }

/-- `ConverterConfig` from `converter.go` (flattened). -/
structure ConverterConfig where
  jpegToWebpQuality : Int
  pngToWebpTryNearLossless : Bool
  jpegToAvifCQ : Int
deriving DecidableEq, Repr

/-- `NewConverter` from `converter.go`: zero numeric fields are replaced by
the documented defaults once, at construction. -/
def NewConverter (c : ConverterConfig) : ConverterConfig :=
  { c with
    jpegToWebpQuality := if c.jpegToWebpQuality = 0 then 80 else c.jpegToWebpQuality,
    jpegToAvifCQ := if c.jpegToAvifCQ = 0 then 25 else c.jpegToAvifCQ }

/-- One observable invocation of an external collaborator (the `vips`
codec library or the filesystem) during a conversion call. -/
inductive VipsEvent where
  | load
  | autoRotate
  | detectType
  | exportWebp (p : WebpExportParams)
  | exportAvif (p : AvifExportParams)
  | loadAnimated
  | mkdirAll
  | writeFile (buf : List Nat)
deriving DecidableEq, Repr

/-- The environment a conversion call runs in: the outcome of each external
operation it may perform.  `statSize` is `os.Stat(inputPath).Size()`,
`detect` the result of `DetectImageType(inputPath)` (reading the file's
byte prefix), `ext` is `strings.ToLower(filepath.Ext(inputPath))`, and the
export oracles give the codec's output buffer for the requested params. -/
structure ConvEnv where
  statSize : Res Int
  load : Option GoError
  autoRotate : Option GoError
  detect : Res ImageType
  ext : String
  exportWebp : WebpExportParams → Res (List Nat)
  loadAnimated : Option GoError
  exportWebpAnim : WebpExportParams → Res (List Nat)
  exportAvif : AvifExportParams → Res (List Nat)
  mkdirAll : Option GoError
  writeFile : List Nat → Option GoError

/-- The shared tail of `ToWebP`/`ToAVIF` (lines 114–130 of `towebp.go`,
70–86 of `toavif.go`): reject with a `FormatError` when the codec output is
not strictly smaller than the input, otherwise create the output directory
and write the file. -/
def checkAndWrite (inputSize : Int) (outputBuffer : List Nat) (env : ConvEnv) :
    Res Unit × List VipsEvent :=
  if (outputBuffer.length : Int) ≥ inputSize then
    (Res.err (newFormatError (plainError "output file size is not smaller than input")), [])
  else
    match env.mkdirAll with
    | some e => (Res.err (wrapErr "failed to create output directory" e), [VipsEvent.mkdirAll])
    | none =>
      match env.writeFile outputBuffer with
      | some e =>
        (Res.err (wrapErr "failed to write output file" e),
          [VipsEvent.mkdirAll, VipsEvent.writeFile outputBuffer])
      | none => (Res.ok (), [VipsEvent.mkdirAll, VipsEvent.writeFile outputBuffer])

/-- Export params built in the `ImageTypeJPEG` case of `ToWebP`. -/
def jpegWebpParams (config : ConverterConfig) : WebpExportParams :=
  { NewWebpExportParams with
    quality := config.jpegToWebpQuality, lossless := false, stripMetadata := true }

/-- Export params of the first (lossless) candidate in the `ImageTypePNG`
case of `ToWebP`. -/
def pngWebpLosslessParams : WebpExportParams :=
  { NewWebpExportParams with lossless := true, stripMetadata := true }

/-- Export params of the near-lossless candidate in the `ImageTypePNG`
case of `ToWebP`. -/
def pngWebpNearLosslessParams : WebpExportParams :=
  { NewWebpExportParams with
    lossless := false, nearLossless := true, quality := 100, stripMetadata := true }

/-- Export params of the `ImageTypeGIF` case of `ToWebP`. -/
def gifWebpParams : WebpExportParams :=
  { NewWebpExportParams with lossless := true, stripMetadata := true }

/-- Export params of the `.jpg`/`.jpeg` case of `ToAVIF`. -/
def jpegAvifParams (config : ConverterConfig) : AvifExportParams :=
  { NewAvifExportParams with
    quality := config.jpegToAvifCQ, lossless := false, stripMetadata := false }

/-- Export params of the `.png` case of `ToAVIF`. -/
def pngAvifParams : AvifExportParams :=
  { NewAvifExportParams with lossless := true, stripMetadata := false }

/-- The external-invocation trace prefix common to all `ToWebP` branches:
stat succeeded, the image was loaded and auto-rotated, the type sniffed. -/
def webpPre : List VipsEvent :=
  [VipsEvent.load, VipsEvent.autoRotate, VipsEvent.detectType]

/-- The external-invocation trace prefix common to all `ToAVIF` branches:
stat succeeded, the image was loaded and auto-rotated. -/
def avifPre : List VipsEvent :=
  [VipsEvent.load, VipsEvent.autoRotate]

/-- `Converter.ToWebP` from `towebp.go`: stat the input, load it, apply the
EXIF auto-rotation, sniff the type from the file's magic bytes, reject
unsupported types, select per-type export params, run the codec, and pass
the produced buffer through the size gate and write.  Returns the call's
result together with the trace of external invocations. -/
def ToWebP (config : ConverterConfig) (env : ConvEnv) : Res Unit × List VipsEvent :=
  match env.statSize with
  | Res.err e => (Res.err (wrapErr "failed to stat input file" e), [])
  | Res.ok inputSize =>
  match env.load with
  | some e => (Res.err (wrapErr "failed to load image" (newFormatError e)), [VipsEvent.load])
  | none =>
  match env.autoRotate with
  | some e =>
    (Res.err (wrapErr "failed to auto-rotate" (newFormatError e)),
      [VipsEvent.load, VipsEvent.autoRotate])
  | none =>
  match env.detect with
  | Res.err e =>
    (Res.err (wrapErr "failed to detect image type" e), webpPre)
  | Res.ok imgType =>
  if ¬ imgType.IsSupported then
    (Res.err (plainError "unsupported image format"), webpPre)
  else
    match imgType with
    | ImageType.jpeg =>
      match env.exportWebp (jpegWebpParams config) with
      | Res.err e =>
        (Res.err (wrapErr "failed to export webp" (newFormatError e)),
          webpPre ++ [VipsEvent.exportWebp (jpegWebpParams config)])
      | Res.ok outputBuffer =>
        ((checkAndWrite inputSize outputBuffer env).1,
          webpPre ++ [VipsEvent.exportWebp (jpegWebpParams config)]
            ++ (checkAndWrite inputSize outputBuffer env).2)
    | ImageType.png =>
      match env.exportWebp pngWebpLosslessParams with
      | Res.err e =>
        (Res.err (wrapErr "failed to export webp" (newFormatError e)),
          webpPre ++ [VipsEvent.exportWebp pngWebpLosslessParams])
      | Res.ok outputBuffer =>
        if config.pngToWebpTryNearLossless then
          match env.exportWebp pngWebpNearLosslessParams with
          | Res.ok nearLosslessBuffer =>
            ((checkAndWrite inputSize
                (if nearLosslessBuffer.length < outputBuffer.length then nearLosslessBuffer
                  else outputBuffer) env).1,
              webpPre ++ [VipsEvent.exportWebp pngWebpLosslessParams,
                  VipsEvent.exportWebp pngWebpNearLosslessParams]
                ++ (checkAndWrite inputSize
                    (if nearLosslessBuffer.length < outputBuffer.length then nearLosslessBuffer
                      else outputBuffer) env).2)
          | Res.err _ =>
            ((checkAndWrite inputSize outputBuffer env).1,
              webpPre ++ [VipsEvent.exportWebp pngWebpLosslessParams,
                  VipsEvent.exportWebp pngWebpNearLosslessParams]
                ++ (checkAndWrite inputSize outputBuffer env).2)
        else
          ((checkAndWrite inputSize outputBuffer env).1,
            webpPre ++ [VipsEvent.exportWebp pngWebpLosslessParams]
              ++ (checkAndWrite inputSize outputBuffer env).2)
    | ImageType.gif =>
      match env.loadAnimated with
      | some e =>
        (Res.err (wrapErr "failed to load animated gif" (newFormatError e)),
          webpPre ++ [VipsEvent.loadAnimated])
      | none =>
        match env.exportWebpAnim gifWebpParams with
        | Res.err e =>
          (Res.err (wrapErr "failed to export animated webp" (newFormatError e)),
            webpPre ++ [VipsEvent.loadAnimated, VipsEvent.exportWebp gifWebpParams])
        | Res.ok outputBuffer =>
          ((checkAndWrite inputSize outputBuffer env).1,
            webpPre ++ [VipsEvent.loadAnimated, VipsEvent.exportWebp gifWebpParams]
              ++ (checkAndWrite inputSize outputBuffer env).2)
    | _ =>
      -- A Go `switch` with no matching case falls through with a nil
      -- `outputBuffer`; unreachable here because of the guard above.
      ((checkAndWrite inputSize [] env).1, webpPre ++ (checkAndWrite inputSize [] env).2)

/-- `Converter.ToAVIF` from `toavif.go`: stat the input, load it, apply the
EXIF auto-rotation, then switch on the lowercased file extension (not the
sniffed type): `.jpg`/`.jpeg` exports lossy at the configured CQ,
`.png` exports lossless, `.gif` is rejected with a `FormatError`, anything
else with a plain error; a produced buffer goes through the size gate and
write.  Returns the call's result together with the trace of external
invocations. -/
def ToAVIF (config : ConverterConfig) (env : ConvEnv) : Res Unit × List VipsEvent :=
  match env.statSize with
  | Res.err e => (Res.err (wrapErr "failed to stat input file" e), [])
  | Res.ok inputSize =>
  match env.load with
  | some e => (Res.err (wrapErr "failed to load image" (newFormatError e)), [VipsEvent.load])
  | none =>
  match env.autoRotate with
  | some e =>
    (Res.err (wrapErr "failed to auto-rotate" (newFormatError e)),
      [VipsEvent.load, VipsEvent.autoRotate])
  | none =>
  if env.ext = ".jpg" ∨ env.ext = ".jpeg" then
    match env.exportAvif (jpegAvifParams config) with
    | Res.err e =>
      (Res.err (wrapErr "failed to export avif" (newFormatError e)),
        avifPre ++ [VipsEvent.exportAvif (jpegAvifParams config)])
    | Res.ok outputBuffer =>
      ((checkAndWrite inputSize outputBuffer env).1,
        avifPre ++ [VipsEvent.exportAvif (jpegAvifParams config)]
          ++ (checkAndWrite inputSize outputBuffer env).2)
  else if env.ext = ".png" then
    match env.exportAvif pngAvifParams with
    | Res.err e =>
      (Res.err (wrapErr "failed to export avif" (newFormatError e)),
        avifPre ++ [VipsEvent.exportAvif pngAvifParams])
    | Res.ok outputBuffer =>
      ((checkAndWrite inputSize outputBuffer env).1,
        avifPre ++ [VipsEvent.exportAvif pngAvifParams]
          ++ (checkAndWrite inputSize outputBuffer env).2)
  else if env.ext = ".gif" then
    (Res.err (newFormatError
      (plainError "GIF to AVIF conversion is not supported by this library")), avifPre)
  else
    (Res.err (plainError "unsupported input format"), avifPre)


/-! ### Shared lemmas and concrete fixtures -/

theorem checkAndWrite_ge (n : Int) (buf : List Nat) (env : ConvEnv)
    (h : (buf.length : Int) ≥ n) :
    checkAndWrite n buf env =
      (Res.err (newFormatError (plainError "output file size is not smaller than input")),
        []) := by
  unfold checkAndWrite
  simp [h]

theorem checkAndWrite_lt (n : Int) (buf : List Nat) (env : ConvEnv)
    (h : (buf.length : Int) < n) (hm : env.mkdirAll = none)
    (hw : env.writeFile buf = none) :
    checkAndWrite n buf env =
      (Res.ok (), [VipsEvent.mkdirAll, VipsEvent.writeFile buf]) := by
  unfold checkAndWrite
  rw [if_neg (by omega)]
  rw [hm, hw]

/-- Every event in a `checkAndWrite` trace is `mkdirAll` or a `writeFile`
of the gated buffer. -/
theorem checkAndWrite_writes_only_buf (n : Int) (buf : List Nat) (env : ConvEnv)
    (b : List Nat) (hb : VipsEvent.writeFile b ∈ (checkAndWrite n buf env).2) :
    b = buf := by
  unfold checkAndWrite at hb
  by_cases h : (buf.length : Int) ≥ n
  · rw [if_pos h] at hb
    simp at hb
  · rw [if_neg h] at hb
    rcases hm : env.mkdirAll with _ | e
    · rw [hm] at hb
      rcases hw : env.writeFile buf with _ | e2
      · rw [hw] at hb
        simp at hb
        exact hb
      · rw [hw] at hb
        simp at hb
        exact hb
    · rw [hm] at hb
      simp at hb

/-- A `checkAndWrite` trace only contains a `writeFile` event when the
buffer passed the strict size gate. -/
theorem checkAndWrite_write_implies_lt (n : Int) (buf : List Nat) (env : ConvEnv)
    (b : List Nat) (hb : VipsEvent.writeFile b ∈ (checkAndWrite n buf env).2) :
    (b.length : Int) < n := by
  have hbuf := checkAndWrite_writes_only_buf n buf env b hb
  subst hbuf
  by_cases h : (b.length : Int) ≥ n
  · rw [checkAndWrite_ge n b env h] at hb
    simp at hb
  · omega

/-- The "size gate" acceptance criterion as the specification words it,
about the outcome `out` of a conversion call whose codec output was `buf`
and whose input file had `n` bytes: a not-strictly-smaller buffer yields a
`FormatError` and no write; a strictly smaller one (with a healthy
filesystem) yields success and the file write. -/
def sizeGateSpec (out : Res Unit × List VipsEvent) (n : Int) (buf : List Nat)
    (env : ConvEnv) : Prop :=
  ((buf.length : Int) ≥ n →
    (∃ e, out.1 = Res.err e ∧ e.format = true) ∧ ∀ b, VipsEvent.writeFile b ∉ out.2) ∧
  ((buf.length : Int) < n → env.mkdirAll = none → env.writeFile buf = none →
    out.1 = Res.ok () ∧ VipsEvent.writeFile buf ∈ out.2)

theorem sizeGateSpec_of_checkAndWrite (n : Int) (buf : List Nat) (env : ConvEnv)
    (pre : List VipsEvent) (hpre : ∀ b, VipsEvent.writeFile b ∉ pre) :
    sizeGateSpec ((checkAndWrite n buf env).1, pre ++ (checkAndWrite n buf env).2)
      n buf env := by
  constructor
  · intro hge
    rw [checkAndWrite_ge n buf env hge]
    refine ⟨⟨_, rfl, rfl⟩, ?_⟩
    intro b
    simp [hpre b]
  · intro hlt hm hw
    rw [checkAndWrite_lt n buf env hlt hm hw]
    exact ⟨rfl, by simp⟩

/-! Run characterizations: how `ToWebP`/`ToAVIF` evaluate once the relevant
environment outcomes are fixed. -/

theorem toWebP_run_statErr (config : ConverterConfig) (env : ConvEnv) (e : GoError)
    (hstat : env.statSize = Res.err e) :
    ToWebP config env = (Res.err (wrapErr "failed to stat input file" e), []) := by
  simp only [ToWebP, hstat]

theorem toWebP_run_loadErr (config : ConverterConfig) (env : ConvEnv) (n : Int)
    (e : GoError) (hstat : env.statSize = Res.ok n) (hload : env.load = some e) :
    ToWebP config env =
      (Res.err (wrapErr "failed to load image" (newFormatError e)), [VipsEvent.load]) := by
  simp only [ToWebP, hstat, hload]

theorem toWebP_run_unsupported (config : ConverterConfig) (env : ConvEnv) (n : Int)
    (t : ImageType) (hstat : env.statSize = Res.ok n) (hload : env.load = none)
    (hrot : env.autoRotate = none) (hdet : env.detect = Res.ok t)
    (hts : t.IsSupported = false) :
    ToWebP config env = (Res.err (plainError "unsupported image format"), webpPre) := by
  simp only [ToWebP, hstat, hload, hrot, hdet, hts]
  simp

theorem toWebP_run_jpeg (config : ConverterConfig) (env : ConvEnv) (n : Int)
    (buf : List Nat) (hstat : env.statSize = Res.ok n) (hload : env.load = none)
    (hrot : env.autoRotate = none) (hdet : env.detect = Res.ok ImageType.jpeg)
    (hexp : env.exportWebp (jpegWebpParams config) = Res.ok buf) :
    ToWebP config env =
      ((checkAndWrite n buf env).1,
        (webpPre ++ [VipsEvent.exportWebp (jpegWebpParams config)])
          ++ (checkAndWrite n buf env).2) := by
  simp only [ToWebP, hstat, hload, hrot, hdet, hexp, ImageType.IsSupported]
  simp

theorem toWebP_run_jpeg_expErr (config : ConverterConfig) (env : ConvEnv) (n : Int)
    (e : GoError) (hstat : env.statSize = Res.ok n) (hload : env.load = none)
    (hrot : env.autoRotate = none) (hdet : env.detect = Res.ok ImageType.jpeg)
    (hexp : env.exportWebp (jpegWebpParams config) = Res.err e) :
    ToWebP config env =
      (Res.err (wrapErr "failed to export webp" (newFormatError e)),
        webpPre ++ [VipsEvent.exportWebp (jpegWebpParams config)]) := by
  simp only [ToWebP, hstat, hload, hrot, hdet, hexp, ImageType.IsSupported]
  simp

theorem toWebP_run_png (config : ConverterConfig) (env : ConvEnv) (n : Int)
    (buf : List Nat) (hstat : env.statSize = Res.ok n) (hload : env.load = none)
    (hrot : env.autoRotate = none) (hdet : env.detect = Res.ok ImageType.png)
    (hnl : config.pngToWebpTryNearLossless = false)
    (hexp : env.exportWebp pngWebpLosslessParams = Res.ok buf) :
    ToWebP config env =
      ((checkAndWrite n buf env).1,
        (webpPre ++ [VipsEvent.exportWebp pngWebpLosslessParams])
          ++ (checkAndWrite n buf env).2) := by
  simp only [ToWebP, hstat, hload, hrot, hdet, hexp, hnl, ImageType.IsSupported]
  simp

theorem toWebP_run_png_expErr (config : ConverterConfig) (env : ConvEnv) (n : Int)
    (e : GoError) (hstat : env.statSize = Res.ok n) (hload : env.load = none)
    (hrot : env.autoRotate = none) (hdet : env.detect = Res.ok ImageType.png)
    (hexp : env.exportWebp pngWebpLosslessParams = Res.err e) :
    ToWebP config env =
      (Res.err (wrapErr "failed to export webp" (newFormatError e)),
        webpPre ++ [VipsEvent.exportWebp pngWebpLosslessParams]) := by
  simp only [ToWebP, hstat, hload, hrot, hdet, hexp, ImageType.IsSupported]
  simp

theorem toWebP_run_png_nl (config : ConverterConfig) (env : ConvEnv) (n : Int)
    (b1 b2 : List Nat) (hstat : env.statSize = Res.ok n) (hload : env.load = none)
    (hrot : env.autoRotate = none) (hdet : env.detect = Res.ok ImageType.png)
    (hnl : config.pngToWebpTryNearLossless = true)
    (h1 : env.exportWebp pngWebpLosslessParams = Res.ok b1)
    (h2 : env.exportWebp pngWebpNearLosslessParams = Res.ok b2) :
    ToWebP config env =
      ((checkAndWrite n (if b2.length < b1.length then b2 else b1) env).1,
        (webpPre ++ [VipsEvent.exportWebp pngWebpLosslessParams,
            VipsEvent.exportWebp pngWebpNearLosslessParams])
          ++ (checkAndWrite n (if b2.length < b1.length then b2 else b1) env).2) := by
  simp only [ToWebP, hstat, hload, hrot, hdet, h1, h2, hnl, ImageType.IsSupported]
  simp

theorem toWebP_run_png_nlErr (config : ConverterConfig) (env : ConvEnv) (n : Int)
    (b1 : List Nat) (e : GoError) (hstat : env.statSize = Res.ok n)
    (hload : env.load = none) (hrot : env.autoRotate = none)
    (hdet : env.detect = Res.ok ImageType.png)
    (hnl : config.pngToWebpTryNearLossless = true)
    (h1 : env.exportWebp pngWebpLosslessParams = Res.ok b1)
    (h2 : env.exportWebp pngWebpNearLosslessParams = Res.err e) :
    ToWebP config env =
      ((checkAndWrite n b1 env).1,
        (webpPre ++ [VipsEvent.exportWebp pngWebpLosslessParams,
            VipsEvent.exportWebp pngWebpNearLosslessParams])
          ++ (checkAndWrite n b1 env).2) := by
  simp only [ToWebP, hstat, hload, hrot, hdet, h1, h2, hnl, ImageType.IsSupported]
  simp

theorem toWebP_run_gif (config : ConverterConfig) (env : ConvEnv) (n : Int)
    (buf : List Nat) (hstat : env.statSize = Res.ok n) (hload : env.load = none)
    (hrot : env.autoRotate = none) (hdet : env.detect = Res.ok ImageType.gif)
    (hanim : env.loadAnimated = none)
    (hexp : env.exportWebpAnim gifWebpParams = Res.ok buf) :
    ToWebP config env =
      ((checkAndWrite n buf env).1,
        (webpPre ++ [VipsEvent.loadAnimated, VipsEvent.exportWebp gifWebpParams])
          ++ (checkAndWrite n buf env).2) := by
  simp only [ToWebP, hstat, hload, hrot, hdet, hanim, hexp, ImageType.IsSupported]
  simp

theorem toWebP_run_gif_expErr (config : ConverterConfig) (env : ConvEnv) (n : Int)
    (e : GoError) (hstat : env.statSize = Res.ok n) (hload : env.load = none)
    (hrot : env.autoRotate = none) (hdet : env.detect = Res.ok ImageType.gif)
    (hanim : env.loadAnimated = none)
    (hexp : env.exportWebpAnim gifWebpParams = Res.err e) :
    ToWebP config env =
      (Res.err (wrapErr "failed to export animated webp" (newFormatError e)),
        webpPre ++ [VipsEvent.loadAnimated, VipsEvent.exportWebp gifWebpParams]) := by
  simp only [ToWebP, hstat, hload, hrot, hdet, hanim, hexp, ImageType.IsSupported]
  simp

theorem toAVIF_run_statErr (config : ConverterConfig) (env : ConvEnv) (e : GoError)
    (hstat : env.statSize = Res.err e) :
    ToAVIF config env = (Res.err (wrapErr "failed to stat input file" e), []) := by
  simp only [ToAVIF, hstat]

theorem toAVIF_run_loadErr (config : ConverterConfig) (env : ConvEnv) (n : Int)
    (e : GoError) (hstat : env.statSize = Res.ok n) (hload : env.load = some e) :
    ToAVIF config env =
      (Res.err (wrapErr "failed to load image" (newFormatError e)), [VipsEvent.load]) := by
  simp only [ToAVIF, hstat, hload]

theorem toAVIF_run_jpegExt (config : ConverterConfig) (env : ConvEnv) (n : Int)
    (buf : List Nat) (hstat : env.statSize = Res.ok n) (hload : env.load = none)
    (hrot : env.autoRotate = none) (hext : env.ext = ".jpg" ∨ env.ext = ".jpeg")
    (hexp : env.exportAvif (jpegAvifParams config) = Res.ok buf) :
    ToAVIF config env =
      ((checkAndWrite n buf env).1,
        (avifPre ++ [VipsEvent.exportAvif (jpegAvifParams config)])
          ++ (checkAndWrite n buf env).2) := by
  simp only [ToAVIF, hstat, hload, hrot, hexp]
  rw [if_pos hext]

theorem toAVIF_run_jpegExt_expErr (config : ConverterConfig) (env : ConvEnv) (n : Int)
    (e : GoError) (hstat : env.statSize = Res.ok n) (hload : env.load = none)
    (hrot : env.autoRotate = none) (hext : env.ext = ".jpg" ∨ env.ext = ".jpeg")
    (hexp : env.exportAvif (jpegAvifParams config) = Res.err e) :
    ToAVIF config env =
      (Res.err (wrapErr "failed to export avif" (newFormatError e)),
        avifPre ++ [VipsEvent.exportAvif (jpegAvifParams config)]) := by
  simp only [ToAVIF, hstat, hload, hrot, hexp]
  rw [if_pos hext]

theorem toAVIF_run_pngExt (config : ConverterConfig) (env : ConvEnv) (n : Int)
    (buf : List Nat) (hstat : env.statSize = Res.ok n) (hload : env.load = none)
    (hrot : env.autoRotate = none) (hext : env.ext = ".png")
    (hexp : env.exportAvif pngAvifParams = Res.ok buf) :
    ToAVIF config env =
      ((checkAndWrite n buf env).1,
        (avifPre ++ [VipsEvent.exportAvif pngAvifParams])
          ++ (checkAndWrite n buf env).2) := by
  simp only [ToAVIF, hstat, hload, hrot, hexp, hext]
  simp

theorem toAVIF_run_pngExt_expErr (config : ConverterConfig) (env : ConvEnv) (n : Int)
    (e : GoError) (hstat : env.statSize = Res.ok n) (hload : env.load = none)
    (hrot : env.autoRotate = none) (hext : env.ext = ".png")
    (hexp : env.exportAvif pngAvifParams = Res.err e) :
    ToAVIF config env =
      (Res.err (wrapErr "failed to export avif" (newFormatError e)),
        avifPre ++ [VipsEvent.exportAvif pngAvifParams]) := by
  simp only [ToAVIF, hstat, hload, hrot, hexp, hext]
  simp

theorem toAVIF_run_gifExt (config : ConverterConfig) (env : ConvEnv) (n : Int)
    (hstat : env.statSize = Res.ok n) (hload : env.load = none)
    (hrot : env.autoRotate = none) (hext : env.ext = ".gif") :
    ToAVIF config env =
      (Res.err (newFormatError
        (plainError "GIF to AVIF conversion is not supported by this library")),
        avifPre) := by
  simp only [ToAVIF, hstat, hload, hrot, hext]
  rw [if_neg (by decide), if_neg (by decide)]
  simp

theorem toAVIF_run_otherExt (config : ConverterConfig) (env : ConvEnv) (n : Int)
    (hstat : env.statSize = Res.ok n) (hload : env.load = none)
    (hrot : env.autoRotate = none) (hj1 : env.ext ≠ ".jpg") (hj2 : env.ext ≠ ".jpeg")
    (hp : env.ext ≠ ".png") (hg : env.ext ≠ ".gif") :
    ToAVIF config env = (Res.err (plainError "unsupported input format"), avifPre) := by
  simp only [ToAVIF, hstat, hload, hrot]
  rw [if_neg (fun hor => hor.elim hj1 hj2), if_neg hp, if_neg hg]

/-- A 12-byte JFIF (JPEG) prefix fixture. -/
def jfifFixture : List Nat :=
  [0xFF, 0xD8, 0xFF, 0xE0, 0x00, 0x10, 0x4A, 0x46, 0x49, 0x46, 0x00, 0x00]

/-- A default configuration as produced by `NewConverter` on a zero config. -/
def cfg0 : ConverterConfig :=
  { jpegToWebpQuality := 80, pngToWebpTryNearLossless := false, jpegToAvifCQ := 25 }

/-- A small codec output buffer (10 bytes). -/
def smallBuf : List Nat := List.replicate 10 7

/-- A healthy environment: a 100-byte input file, all external operations
succeed, every codec export yields the 10-byte `smallBuf`, and the input is
sniffed as JPEG with a `.jpg` extension. -/
def happyEnv : ConvEnv :=
  { statSize := Res.ok 100
    load := none
    autoRotate := none
    detect := Res.ok ImageType.jpeg
    ext := ".jpg"
    exportWebp := fun _ => Res.ok smallBuf
    loadAnimated := none
    exportWebpAnim := fun _ => Res.ok smallBuf
    exportAvif := fun _ => Res.ok smallBuf
    mkdirAll := none
    writeFile := fun _ => none }

/-- `happyEnv` with a `.png` extension and a PNG sniff result. -/
def avifPngEnv : ConvEnv :=
  { happyEnv with ext := ".png", detect := Res.ok ImageType.png }

/-- `happyEnv` with a `.gif` extension and a GIF sniff result. -/
def avifGifEnv : ConvEnv :=
  { happyEnv with ext := ".gif", detect := Res.ok ImageType.gif }

/-- `happyEnv` whose content sniffs as PNG while the path still ends in
`.jpg`: the file's bytes and its name disagree. -/
def pngContentJpgNameEnv : ConvEnv :=
  { happyEnv with detect := Res.ok ImageType.png }

/-- `happyEnv` sniffed as WebP, an unconvertible source type. -/
def webpSourceEnv : ConvEnv :=
  { happyEnv with detect := Res.ok ImageType.webp }

/-- A codec-internal failure, not itself a `FormatError`. -/
def codecFault : GoError := plainError "vips encoder fault"

/-- `happyEnv` whose AVIF export fails with `codecFault`. -/
def avifExportFailEnv : ConvEnv :=
  { happyEnv with exportAvif := fun _ => Res.err codecFault }

/-- A PNG→WebP environment whose codec answers the near-lossless request
with a 5-byte buffer and the lossless request with a 9-byte buffer. -/
def nlSelectEnv : ConvEnv :=
  { happyEnv with
    detect := Res.ok ImageType.png
    ext := ".png"
    exportWebp := fun p =>
      if p.nearLossless then Res.ok (List.replicate 5 1)
      else Res.ok (List.replicate 9 2) }

/-- `cfg0` with `tryNearLossless` enabled. -/
def nlConfig : ConverterConfig := { cfg0 with pngToWebpTryNearLossless := true }

/-! ### Claim theorems -/

/-- C9: `IsSupported` returns `true` exactly for the three source types
JPEG, PNG and GIF, and `false` for WebP, AVIF and Unknown. -/
theorem c9_isSupported_exactly_jpeg_png_gif :
    ImageType.IsSupported ImageType.jpeg = true ∧
    ImageType.IsSupported ImageType.png = true ∧
    ImageType.IsSupported ImageType.gif = true ∧
    ImageType.IsSupported ImageType.webp = false ∧
    ImageType.IsSupported ImageType.avif = false ∧
    ImageType.IsSupported ImageType.unknown = false := by
  decide

/-- C1: for every byte buffer of at least 12 bytes, `detectFromBytes`
returns exactly the tag of the ordered signature checks the specification
lists (PNG, JPEG, GIF, WebP with bytes 4–7 unvalidated, the AVIF
`ftyp`/major-brand/offset-16 scan), `Unknown` otherwise, and never an
error. -/
theorem c1_detectFromBytes_follows_ordered_signatures (buf : List Nat)
    (h : 12 ≤ buf.length) :
    (detectFromBytes buf).1 = specClassify buf ∧ (detectFromBytes buf).2 = none :=
  detectFromBytes_eq_specClassify buf h

/-- Witness for C1 at the 12-byte JFIF fixture. -/
theorem c1_witness :
    12 ≤ jfifFixture.length ∧
      ((detectFromBytes jfifFixture).1 = specClassify jfifFixture ∧
        (detectFromBytes jfifFixture).2 = none) :=
  ⟨by decide, c1_detectFromBytes_follows_ordered_signatures jfifFixture (by decide)⟩

/-- C7 counterexample: on an empty source (0 bytes available, hence fewer
than 12), `io.ReadFull` reports a bare `io.EOF`, which the code propagates
as the wrapped read error — not the "too small" error.  So the "too small"
failure does not occur *exactly* when fewer than 12 bytes are available. -/
theorem c7_counterexample :
    ([] : List Nat).length < 12 ∧
      (DetectImageTypeFromReader []).1 = DetectOutcome.failed DetectError.readFailed ∧
      DetectError.readFailed ≠ DetectError.tooSmall := by
  decide

/-- C7 (amended): the reader-based detector fails with the "too small"
error exactly when at least 1 and fewer than 12 bytes are available (an
empty source fails with the propagated read error instead); a short read
that still yields at least 12 bytes is not a failure; the byte-slice
variant never produces an error (the underlying classifier's error is
always nil) and a 2-byte input yields the too-small error from the reader
and `Unknown` from the byte-slice variant. -/
theorem c7_too_small_iff_one_to_eleven_bytes (stream : List Nat) (data : List Nat) :
    ((DetectImageTypeFromReader stream).1 = DetectOutcome.failed DetectError.tooSmall ↔
      (1 ≤ stream.length ∧ stream.length < 12)) ∧
    (12 ≤ stream.length →
      (DetectImageTypeFromReader stream).1 =
        DetectOutcome.found (DetectImageTypeFromBytes (stream.take 32))) ∧
    (detectFromBytes data).2 = none ∧
    (DetectImageTypeFromReader [0x12, 0x34]).1 =
      DetectOutcome.failed DetectError.tooSmall ∧
    DetectImageTypeFromBytes [0x12, 0x34] = ImageType.unknown := by
  refine ⟨?_, ?_, ?_, by decide, by decide⟩
  · unfold DetectImageTypeFromReader
    by_cases h0 : stream.length = 0
    · simp [h0]
    · by_cases h12 : min 32 stream.length < 12
      · simp only [h0, if_false, h12, if_true]
        constructor
        · intro _
          omega
        · intro _
          trivial
      · simp only [h0, if_false, h12, if_true]
        constructor
        · intro hctr
          exact absurd hctr (by simp)
        · intro hb
          omega
  · intro h
    unfold DetectImageTypeFromReader
    have h0 : ¬ stream.length = 0 := by omega
    have h12 : ¬ min 32 stream.length < 12 := by omega
    simp [h0, h12, DetectImageTypeFromBytes]
  · unfold detectFromBytes
    repeat' split
    all_goals rfl

/-- Witness for the C7 amended theorem at a 12-byte stream and a 2-byte
slice. -/
theorem c7_witness :
    12 ≤ jfifFixture.length ∧
      (DetectImageTypeFromReader jfifFixture).1 =
        DetectOutcome.found (DetectImageTypeFromBytes (jfifFixture.take 32)) :=
  ⟨by decide, (c7_too_small_iff_one_to_eleven_bytes jfifFixture [0x12]).2.1 (by decide)⟩

/-- C2: on every conversion branch in which the codec produced an output
buffer (the six legal source/target pairs, with and without the PNG
near-lossless retry), a buffer at least as large as the input file is
rejected with a `FormatError` and nothing is written, and a strictly
smaller buffer (with a healthy filesystem) is written and the call
succeeds. -/
theorem c2_universal_size_gate (config : ConverterConfig) (env : ConvEnv) (n : Int)
    (hstat : env.statSize = Res.ok n) (hload : env.load = none)
    (hrot : env.autoRotate = none) :
    (∀ buf, env.detect = Res.ok ImageType.jpeg →
      env.exportWebp (jpegWebpParams config) = Res.ok buf →
      sizeGateSpec (ToWebP config env) n buf env) ∧
    (∀ buf, env.detect = Res.ok ImageType.png →
      config.pngToWebpTryNearLossless = false →
      env.exportWebp pngWebpLosslessParams = Res.ok buf →
      sizeGateSpec (ToWebP config env) n buf env) ∧
    (∀ b1 b2, env.detect = Res.ok ImageType.png →
      config.pngToWebpTryNearLossless = true →
      env.exportWebp pngWebpLosslessParams = Res.ok b1 →
      env.exportWebp pngWebpNearLosslessParams = Res.ok b2 →
      sizeGateSpec (ToWebP config env) n (if b2.length < b1.length then b2 else b1) env) ∧
    (∀ b1 e, env.detect = Res.ok ImageType.png →
      config.pngToWebpTryNearLossless = true →
      env.exportWebp pngWebpLosslessParams = Res.ok b1 →
      env.exportWebp pngWebpNearLosslessParams = Res.err e →
      sizeGateSpec (ToWebP config env) n b1 env) ∧
    (∀ buf, env.detect = Res.ok ImageType.gif → env.loadAnimated = none →
      env.exportWebpAnim gifWebpParams = Res.ok buf →
      sizeGateSpec (ToWebP config env) n buf env) ∧
    (∀ buf, (env.ext = ".jpg" ∨ env.ext = ".jpeg") →
      env.exportAvif (jpegAvifParams config) = Res.ok buf →
      sizeGateSpec (ToAVIF config env) n buf env) ∧
    (∀ buf, env.ext = ".png" →
      env.exportAvif pngAvifParams = Res.ok buf →
      sizeGateSpec (ToAVIF config env) n buf env) := by
  refine ⟨?_, ?_, ?_, ?_, ?_, ?_, ?_⟩
  · intro buf hdet hexp
    rw [toWebP_run_jpeg config env n buf hstat hload hrot hdet hexp]
    exact sizeGateSpec_of_checkAndWrite n buf env _ (by intro b; simp [webpPre])
  · intro buf hdet hnl hexp
    rw [toWebP_run_png config env n buf hstat hload hrot hdet hnl hexp]
    exact sizeGateSpec_of_checkAndWrite n buf env _ (by intro b; simp [webpPre])
  · intro b1 b2 hdet hnl h1 h2
    rw [toWebP_run_png_nl config env n b1 b2 hstat hload hrot hdet hnl h1 h2]
    exact sizeGateSpec_of_checkAndWrite n _ env _ (by intro b; simp [webpPre])
  · intro b1 e hdet hnl h1 h2
    rw [toWebP_run_png_nlErr config env n b1 e hstat hload hrot hdet hnl h1 h2]
    exact sizeGateSpec_of_checkAndWrite n b1 env _ (by intro b; simp [webpPre])
  · intro buf hdet hanim hexp
    rw [toWebP_run_gif config env n buf hstat hload hrot hdet hanim hexp]
    exact sizeGateSpec_of_checkAndWrite n buf env _ (by intro b; simp [webpPre])
  · intro buf hext hexp
    rw [toAVIF_run_jpegExt config env n buf hstat hload hrot hext hexp]
    exact sizeGateSpec_of_checkAndWrite n buf env _ (by intro b; simp [avifPre])
  · intro buf hext hexp
    rw [toAVIF_run_pngExt config env n buf hstat hload hrot hext hexp]
    exact sizeGateSpec_of_checkAndWrite n buf env _ (by intro b; simp [avifPre])

/-- Witness for C2: in `happyEnv` (100-byte input, 10-byte codec output)
the JPEG→WebP call succeeds and writes the codec buffer. -/
theorem c2_witness :
    (ToWebP cfg0 happyEnv).1 = Res.ok () ∧
      VipsEvent.writeFile smallBuf ∈ (ToWebP cfg0 happyEnv).2 :=
  ((c2_universal_size_gate cfg0 happyEnv 100 rfl rfl rfl).1 smallBuf rfl rfl).2
    (by decide) rfl rfl

/-- C3, evaluated at the failing inputs: both `ToAVIF` exports are
requested with `StripMetadata = false` (metadata kept), while all four
`ToWebP` parameter sets request `StripMetadata = true` — so the AVIF pairs
do not request stripping of all metadata, contradicting the claim (and the
repository's own README and tests, which require all metadata removed). -/
theorem c3_toAVIF_requests_metadata_kept :
    (jpegAvifParams cfg0).stripMetadata = false ∧
    pngAvifParams.stripMetadata = false ∧
    VipsEvent.exportAvif (jpegAvifParams cfg0) ∈ (ToAVIF cfg0 happyEnv).2 ∧
    VipsEvent.exportAvif pngAvifParams ∈ (ToAVIF cfg0 avifPngEnv).2 ∧
    (jpegWebpParams cfg0).stripMetadata = true ∧
    pngWebpLosslessParams.stripMetadata = true ∧
    pngWebpNearLosslessParams.stripMetadata = true ∧
    gifWebpParams.stripMetadata = true := by
  decide

/-- C4 counterexample: for a GIF source requested as AVIF target, the
external codec *is* invoked on that input — the image is loaded and
auto-rotated through the codec library — before the pair is rejected. -/
theorem c4_counterexample :
    VipsEvent.load ∈ (ToAVIF cfg0 avifGifEnv).2 ∧
      VipsEvent.autoRotate ∈ (ToAVIF cfg0 avifGifEnv).2 := by
  decide

/-- C4 (amended): for every GIF source requested as AVIF target (with the
preceding stat/load/rotate succeeding), `ToAVIF` fails with a
`FormatError`, the AVIF *encode* is never invoked, and no output file is
written — though the input is loaded and auto-rotated through the codec
library before the pair check. -/
theorem c4_gif_to_avif_rejected_before_encode (config : ConverterConfig)
    (env : ConvEnv) (n : Int) (hstat : env.statSize = Res.ok n)
    (hload : env.load = none) (hrot : env.autoRotate = none)
    (hext : env.ext = ".gif") :
    (∃ e, (ToAVIF config env).1 = Res.err e ∧ e.format = true) ∧
    (∀ p, VipsEvent.exportAvif p ∉ (ToAVIF config env).2) ∧
    (∀ b, VipsEvent.writeFile b ∉ (ToAVIF config env).2) := by
  rw [toAVIF_run_gifExt config env n hstat hload hrot hext]
  refine ⟨⟨_, rfl, rfl⟩, ?_, ?_⟩ <;> intro x <;> simp [avifPre]

/-- Witness for the C4 amended theorem at the concrete GIF environment. -/
theorem c4_witness :
    (∃ e, (ToAVIF cfg0 avifGifEnv).1 = Res.err e ∧ e.format = true) ∧
    (∀ p, VipsEvent.exportAvif p ∉ (ToAVIF cfg0 avifGifEnv).2) ∧
    (∀ b, VipsEvent.writeFile b ∉ (ToAVIF cfg0 avifGifEnv).2) :=
  c4_gif_to_avif_rejected_before_encode cfg0 avifGifEnv 100 rfl rfl rfl rfl

/-- C5 counterexample: with the sniffer reporting PNG but the path ending
in `.jpg`, `ToAVIF` requests the lossy JPEG→AVIF parameters, and changing
nothing but the extension changes the call's behavior — the encoding
parameters are selected from the file name, not from the sniffed
`ImageType`. -/
theorem c5_counterexample :
    pngContentJpgNameEnv.detect = Res.ok ImageType.png ∧
    VipsEvent.exportAvif (jpegAvifParams cfg0) ∈ (ToAVIF cfg0 pngContentJpgNameEnv).2 ∧
    (jpegAvifParams cfg0).lossless = false ∧
    pngAvifParams.lossless = true ∧
    ToAVIF cfg0 pngContentJpgNameEnv ≠
      ToAVIF cfg0 { pngContentJpgNameEnv with ext := ".png" } := by
  decide

/-- C5 (amended): `ToWebP` selects its encoding parameters from the
`ImageType` produced by the byte-prefix sniffer, but `ToAVIF` ignores the
sniffer entirely (its outcome is invariant under the sniff result) and
selects parameters from the lowercased file extension. -/
theorem c5_webp_sniffs_avif_uses_extension (config : ConverterConfig)
    (env : ConvEnv) (d : Res ImageType) (n : Int)
    (hstat : env.statSize = Res.ok n) (hload : env.load = none)
    (hrot : env.autoRotate = none) :
    ToAVIF config { env with detect := d } = ToAVIF config env ∧
    (env.detect = Res.ok ImageType.jpeg →
      VipsEvent.exportWebp (jpegWebpParams config) ∈ (ToWebP config env).2) ∧
    (env.detect = Res.ok ImageType.png →
      VipsEvent.exportWebp pngWebpLosslessParams ∈ (ToWebP config env).2) ∧
    (env.detect = Res.ok ImageType.gif → env.loadAnimated = none →
      VipsEvent.exportWebp gifWebpParams ∈ (ToWebP config env).2) ∧
    ((env.ext = ".jpg" ∨ env.ext = ".jpeg") →
      VipsEvent.exportAvif (jpegAvifParams config) ∈ (ToAVIF config env).2) ∧
    (env.ext = ".png" →
      VipsEvent.exportAvif pngAvifParams ∈ (ToAVIF config env).2) := by
  refine ⟨?_, ?_, ?_, ?_, ?_, ?_⟩
  · obtain ⟨s, l, r, dt, ex, ew, la, ewa, ea, mk, wf⟩ := env
    rfl
  · intro hdet
    cases hexp : env.exportWebp (jpegWebpParams config) with
    | ok b =>
      rw [toWebP_run_jpeg config env n b hstat hload hrot hdet hexp]
      simp [webpPre]
    | err e =>
      rw [toWebP_run_jpeg_expErr config env n e hstat hload hrot hdet hexp]
      simp [webpPre]
  · intro hdet
    cases hexp : env.exportWebp pngWebpLosslessParams with
    | ok b1 =>
      cases hnl : config.pngToWebpTryNearLossless with
      | false =>
        rw [toWebP_run_png config env n b1 hstat hload hrot hdet hnl hexp]
        simp [webpPre]
      | true =>
        cases h2 : env.exportWebp pngWebpNearLosslessParams with
        | ok b2 =>
          rw [toWebP_run_png_nl config env n b1 b2 hstat hload hrot hdet hnl hexp h2]
          simp [webpPre]
        | err e =>
          rw [toWebP_run_png_nlErr config env n b1 e hstat hload hrot hdet hnl hexp h2]
          simp [webpPre]
    | err e =>
      rw [toWebP_run_png_expErr config env n e hstat hload hrot hdet hexp]
      simp [webpPre]
  · intro hdet hanim
    cases hexp : env.exportWebpAnim gifWebpParams with
    | ok b =>
      rw [toWebP_run_gif config env n b hstat hload hrot hdet hanim hexp]
      simp [webpPre]
    | err e =>
      rw [toWebP_run_gif_expErr config env n e hstat hload hrot hdet hanim hexp]
      simp [webpPre]
  · intro hext
    cases hexp : env.exportAvif (jpegAvifParams config) with
    | ok b =>
      rw [toAVIF_run_jpegExt config env n b hstat hload hrot hext hexp]
      simp [avifPre]
    | err e =>
      rw [toAVIF_run_jpegExt_expErr config env n e hstat hload hrot hext hexp]
      simp [avifPre]
  · intro hext
    cases hexp : env.exportAvif pngAvifParams with
    | ok b =>
      rw [toAVIF_run_pngExt config env n b hstat hload hrot hext hexp]
      simp [avifPre]
    | err e =>
      rw [toAVIF_run_pngExt_expErr config env n e hstat hload hrot hext hexp]
      simp [avifPre]

/-- Witness for the C5 amended theorem at the concrete `happyEnv`. -/
theorem c5_witness :
    ToAVIF cfg0 { happyEnv with detect := Res.ok ImageType.png } = ToAVIF cfg0 happyEnv ∧
    VipsEvent.exportWebp (jpegWebpParams cfg0) ∈ (ToWebP cfg0 happyEnv).2 ∧
    VipsEvent.exportAvif (jpegAvifParams cfg0) ∈ (ToAVIF cfg0 happyEnv).2 :=
  ⟨(c5_webp_sniffs_avif_uses_extension cfg0 happyEnv (Res.ok ImageType.png) 100
      rfl rfl rfl).1,
   (c5_webp_sniffs_avif_uses_extension cfg0 happyEnv (Res.ok ImageType.png) 100
      rfl rfl rfl).2.1 rfl,
   (c5_webp_sniffs_avif_uses_extension cfg0 happyEnv (Res.ok ImageType.png) 100
      rfl rfl rfl).2.2.2.2.1 (Or.inl rfl)⟩

/-- C6 counterexample: an unsupported source type yields a *plain* error
(`errors.As` to `FormatError` fails), while a codec-internal export fault
is wrapped in a `FormatError` — both directions of the claim's taxonomy
fail on the code. -/
theorem c6_counterexample :
    (ToWebP cfg0 webpSourceEnv).1 = Res.err (plainError "unsupported image format") ∧
    (plainError "unsupported image format").format = false ∧
    (ToAVIF cfg0 avifExportFailEnv).1 =
      Res.err (wrapErr "failed to export avif" (newFormatError codecFault)) ∧
    codecFault.format = false ∧
    (wrapErr "failed to export avif" (newFormatError codecFault)).format = true := by
  decide

/-- C6 (amended): the disallowed pair GIF→AVIF and the size-regression
rejection are reported as `FormatError`; stat, directory-creation and
write failures propagate the underlying system error unmarked; but an
unsupported source type is reported as a plain error (not a
`FormatError`), and codec faults (image load, export) are wrapped in a
`FormatError`. -/
theorem c6_error_taxonomy (config : ConverterConfig) (env : ConvEnv) :
    (∀ e, env.statSize = Res.err e →
      (ToWebP config env).1 = Res.err (wrapErr "failed to stat input file" e) ∧
      (ToAVIF config env).1 = Res.err (wrapErr "failed to stat input file" e) ∧
      (wrapErr "failed to stat input file" e).format = e.format) ∧
    (∀ n t, env.statSize = Res.ok n → env.load = none → env.autoRotate = none →
      env.detect = Res.ok t → t.IsSupported = false →
      (ToWebP config env).1 = Res.err (plainError "unsupported image format") ∧
      (plainError "unsupported image format").format = false) ∧
    (∀ n, env.statSize = Res.ok n → env.load = none → env.autoRotate = none →
      env.ext ≠ ".jpg" → env.ext ≠ ".jpeg" → env.ext ≠ ".png" → env.ext ≠ ".gif" →
      (ToAVIF config env).1 = Res.err (plainError "unsupported input format") ∧
      (plainError "unsupported input format").format = false) ∧
    (∀ n, env.statSize = Res.ok n → env.load = none → env.autoRotate = none →
      env.ext = ".gif" →
      ∃ e, (ToAVIF config env).1 = Res.err e ∧ e.format = true) ∧
    (∀ n buf, (buf.length : Int) ≥ n →
      ∃ e, (checkAndWrite n buf env).1 = Res.err e ∧ e.format = true) ∧
    (∀ n buf e, (buf.length : Int) < n → env.mkdirAll = some e →
      (checkAndWrite n buf env).1 =
        Res.err (wrapErr "failed to create output directory" e) ∧
      (wrapErr "failed to create output directory" e).format = e.format) ∧
    (∀ n e, env.statSize = Res.ok n → env.load = some e →
      (ToWebP config env).1 =
        Res.err (wrapErr "failed to load image" (newFormatError e)) ∧
      (newFormatError e).format = true) ∧
    (∀ n e, env.statSize = Res.ok n → env.load = none → env.autoRotate = none →
      (env.ext = ".jpg" ∨ env.ext = ".jpeg") →
      env.exportAvif (jpegAvifParams config) = Res.err e →
      (ToAVIF config env).1 =
        Res.err (wrapErr "failed to export avif" (newFormatError e)) ∧
      (newFormatError e).format = true) := by
  refine ⟨?_, ?_, ?_, ?_, ?_, ?_, ?_, ?_⟩
  · intro e hstat
    rw [toWebP_run_statErr config env e hstat, toAVIF_run_statErr config env e hstat]
    exact ⟨rfl, rfl, rfl⟩
  · intro n t hstat hload hrot hdet hts
    rw [toWebP_run_unsupported config env n t hstat hload hrot hdet hts]
    exact ⟨rfl, rfl⟩
  · intro n hstat hload hrot hj1 hj2 hp hg
    rw [toAVIF_run_otherExt config env n hstat hload hrot hj1 hj2 hp hg]
    exact ⟨rfl, rfl⟩
  · intro n hstat hload hrot hext
    rw [toAVIF_run_gifExt config env n hstat hload hrot hext]
    exact ⟨_, rfl, rfl⟩
  · intro n buf hge
    rw [checkAndWrite_ge n buf env hge]
    exact ⟨_, rfl, rfl⟩
  · intro n buf e hlt hm
    unfold checkAndWrite
    rw [if_neg (by omega), hm]
    exact ⟨rfl, rfl⟩
  · intro n e hstat hload
    rw [toWebP_run_loadErr config env n e hstat hload]
    exact ⟨rfl, rfl⟩
  · intro n e hstat hload hrot hext hexp
    rw [toAVIF_run_jpegExt_expErr config env n e hstat hload hrot hext hexp]
    exact ⟨rfl, rfl⟩

/-- Witness for the C6 amended theorem at concrete environments. -/
theorem c6_witness :
    (ToWebP cfg0 webpSourceEnv).1 = Res.err (plainError "unsupported image format") ∧
    (∃ e, (ToAVIF cfg0 avifGifEnv).1 = Res.err e ∧ e.format = true) ∧
    (ToAVIF cfg0 avifExportFailEnv).1 =
      Res.err (wrapErr "failed to export avif" (newFormatError codecFault)) :=
  ⟨((c6_error_taxonomy cfg0 webpSourceEnv).2.1 100 ImageType.webp rfl rfl rfl rfl rfl).1,
   (c6_error_taxonomy cfg0 avifGifEnv).2.2.2.1 100 rfl rfl rfl rfl,
   ((c6_error_taxonomy cfg0 avifExportFailEnv).2.2.2.2.2.2.2 100 codecFault
      rfl rfl rfl (Or.inl rfl) rfl).1⟩

/-- C10: when `tryNearLossless` is set for a PNG→WebP conversion, the
lossless candidate is requested first, then the near-lossless candidate at
quality 100, and the buffer passed on to the size gate and write is the
near-lossless one exactly when it is strictly smaller — ties keep the
lossless candidate. -/
theorem c10_near_lossless_selection (config : ConverterConfig) (env : ConvEnv)
    (n : Int) (b1 b2 : List Nat) (hstat : env.statSize = Res.ok n)
    (hload : env.load = none) (hrot : env.autoRotate = none)
    (hdet : env.detect = Res.ok ImageType.png)
    (hnl : config.pngToWebpTryNearLossless = true)
    (h1 : env.exportWebp pngWebpLosslessParams = Res.ok b1)
    (h2 : env.exportWebp pngWebpNearLosslessParams = Res.ok b2) :
    pngWebpLosslessParams.lossless = true ∧
    pngWebpNearLosslessParams.nearLossless = true ∧
    pngWebpNearLosslessParams.quality = 100 ∧
    ToWebP config env =
      ((checkAndWrite n (if b2.length < b1.length then b2 else b1) env).1,
        (webpPre ++ [VipsEvent.exportWebp pngWebpLosslessParams,
            VipsEvent.exportWebp pngWebpNearLosslessParams])
          ++ (checkAndWrite n (if b2.length < b1.length then b2 else b1) env).2) :=
  ⟨rfl, rfl, rfl, toWebP_run_png_nl config env n b1 b2 hstat hload hrot hdet hnl h1 h2⟩

/-- Witness for C10 in `nlSelectEnv`: the 5-byte near-lossless candidate
beats the 9-byte lossless candidate. -/
theorem c10_witness :
    pngWebpLosslessParams.lossless = true ∧
    pngWebpNearLosslessParams.nearLossless = true ∧
    pngWebpNearLosslessParams.quality = 100 ∧
    ToWebP nlConfig nlSelectEnv =
      ((checkAndWrite 100
          (if (List.replicate 5 1).length < (List.replicate 9 2).length
            then List.replicate 5 1 else List.replicate 9 2) nlSelectEnv).1,
        (webpPre ++ [VipsEvent.exportWebp pngWebpLosslessParams,
            VipsEvent.exportWebp pngWebpNearLosslessParams])
          ++ (checkAndWrite 100
              (if (List.replicate 5 1).length < (List.replicate 9 2).length
                then List.replicate 5 1 else List.replicate 9 2) nlSelectEnv).2) :=
  c10_near_lossless_selection nlConfig nlSelectEnv 100
    (List.replicate 9 2) (List.replicate 5 1) rfl rfl rfl rfl rfl
    (by decide) (by decide)

/-- A 32-byte ISO-BMFF `ftyp` header with major brand `mif1` and no brand
strings in bytes 12–31. -/
def ftypMif1Header : List Nat :=
  [0x00, 0x00, 0x00, 0x20] ++ ftypBytes ++ [0x6D, 0x69, 0x66, 0x31] ++ List.replicate 20 0

/-- `ftypMif1Header` followed by the compatible brand `avif` at offset 32. -/
def brandAt32Buf : List Nat := ftypMif1Header ++ avifBrand

/-- `ftypMif1Header` followed by four zero bytes. -/
def zeroAt32Buf : List Nat := ftypMif1Header ++ [0x00, 0x00, 0x00, 0x00]

/-- C8 counterexample: two 36-byte inputs that agree on their first 32
bytes but are classified differently by the byte-slice detector, because
the AVIF compatible-brand scan examines the slice beyond offset 31.  So
the detector does not, in general, examine at most the first 32 bytes of
its input. -/
theorem c8_counterexample :
    brandAt32Buf.take 32 = zeroAt32Buf.take 32 ∧
      32 ≤ brandAt32Buf.length ∧ 32 ≤ zeroAt32Buf.length ∧
      DetectImageTypeFromBytes brandAt32Buf = ImageType.avif ∧
      DetectImageTypeFromBytes zeroAt32Buf = ImageType.unknown := by
  decide

/-- C8 (amended): the *reader-based* detector consumes at most 32 bytes
from the stream regardless of source length, and its outcome depends only
on the first 32 bytes: two streams of at least 32 bytes that agree on
their first 32 bytes get the same classification.  (The byte-slice
detector, by contrast, may examine its slice beyond offset 31 in the AVIF
compatible-brand scan.) -/
theorem c8_reader_bounded_consumption (s1 s2 : List Nat) :
    (DetectImageTypeFromReader s1).2 ≤ 32 ∧
    (s1.take 32 = s2.take 32 → 32 ≤ s1.length → 32 ≤ s2.length →
      DetectImageTypeFromReader s1 = DetectImageTypeFromReader s2) := by
  constructor
  · have hsnd : (DetectImageTypeFromReader s1).2 = min 32 s1.length := by
      unfold DetectImageTypeFromReader
      split_ifs <;> rfl
    rw [hsnd]
    exact min_le_left 32 s1.length
  · intro hpre hl1 hl2
    unfold DetectImageTypeFromReader
    have e1 : min 32 s1.length = 32 := by omega
    have e2 : min 32 s2.length = 32 := by omega
    have n1 : ¬ s1.length = 0 := by omega
    have n2 : ¬ s2.length = 0 := by omega
    simp [n1, n2, e1, e2, hpre]

/-- Witness for the C8 amended theorem: a 36-byte stream and the stream
that replaces its bytes beyond offset 31, which classify identically
through the reader. -/
theorem c8_witness :
    (DetectImageTypeFromReader brandAt32Buf).2 ≤ 32 ∧
      DetectImageTypeFromReader brandAt32Buf = DetectImageTypeFromReader zeroAt32Buf :=
  ⟨(c8_reader_bounded_consumption brandAt32Buf zeroAt32Buf).1,
    (c8_reader_bounded_consumption brandAt32Buf zeroAt32Buf).2
      (by decide) (by decide) (by decide)⟩

end NextGenImage
